import Mathlib

/-!
Verification of the fixpoint-drishti telemetry backend's ingestion /
authentication / rate-governance / rule-evaluation / alert-lifecycle
pipeline, as a shallow embedding of the JavaScript source.

Conventions:
* timestamps are milliseconds since the epoch, modelled as `Int`
  (JWT claim timestamps are seconds, noted where used);
* physical readings (voltages, temperatures, percentages) are `ℚ`;
* MongoDB document stores are `List`s of records; a `findOneAndUpdate`
  upsert or `save` is explicit state passing;
* JavaScript truthiness of optional numeric / string fields is modelled
  explicitly (`numTruthy`, `strTruthy`) because several code paths
  (`!this.batteryPercentage`, `device.batteryThreshold || 20`) rely on it;
* fallible controllers return `Except AppError`.
-/

namespace Drishti

/-- Severity levels (alertSchema.severity enum). -/
inductive Severity
  | low
  | medium
  | high
  | critical
deriving DecidableEq, Repr

/-- Alert types (alertSchema.alertType enum). -/
inductive AlertType
  | vibration
  | tampering
  | low_battery
  | geofence
  | offline
  | temperature
  | custom
deriving DecidableEq, Repr

/-- An Alert document (alertSchema).  The free-text `message`, the
diagnostic `data` payload, the GeoJSON `location` and the `autoResolve`
settings carry no lifecycle or dedup information and are not modelled;
all fields read or written by the alert engine, the lifecycle commands,
the archive command and the queries are. -/
structure Alert where
  id : Nat
  deviceId : String
  alertType : AlertType
  severity : Severity
  title : String
  isResolved : Bool := false
  resolvedAt : Option Int := none
  resolvedBy : Option String := none
  resolutionNotes : Option String := none
  acknowledgedAt : Option Int := none
  acknowledgedBy : Option String := none
  deletedAt : Option Int := none
  deletedBy : Option String := none
  timestamp : Int
deriving DecidableEq, Repr

/-- deviceSchema.alertSettings with its schema defaults. -/
structure AlertSettings where
  vibrationEnabled : Bool := true
  tamperingEnabled : Bool := true
  lowBatteryEnabled : Bool := true
  geofenceEnabled : Bool := false
deriving DecidableEq, Repr

/-- A Device document (deviceSchema).  `hardware` and `geofence`
metadata are not read by this pipeline and are not modelled.
`batteryThreshold` stays an `Option` because the alert engine guards it
with a JS falsy-or (`device.batteryThreshold || 20`). -/
structure Device where
  deviceId : String
  name : String
  isActive : Bool := true
  lastSeen : Int
  batteryThreshold : Option ℚ := some 20
  alertSettings : AlertSettings := {}
deriving DecidableEq, Repr

/-- A LocationData document (locationDataSchema).  Of the open-ended
channel set only the fields consulted by the alert engine and the
battery-percentage pre-save hook are modelled (`batteryVoltage`,
`batteryPercentage`, `temperature`); position and the remaining OBD2 /
environmental channels are never read by the rule engine. -/
structure LocationData where
  deviceId : String
  batteryVoltage : ℚ
  batteryPercentage : Option ℚ := none
  temperature : Option ℚ := none
  timestamp : Int
deriving DecidableEq, Repr

/-- An operational error (`AppError`): message plus HTTP status code. -/
structure AppError where
  message : String
  statusCode : Nat
deriving DecidableEq, Repr

/-- JavaScript truthiness of an optional numeric field: `undefined`
and `0` are falsy. -/
def numTruthy : Option ℚ → Bool
  | none => false
  | some v => !(decide (v = 0))

/-- JavaScript truthiness of an optional string field: `undefined` and
the empty string are falsy. -/
def strTruthy : Option String → Bool
  | none => false
  | some v => !(decide (v = ""))

/-! ## Sample normalizer: locationDataSchema pre-save hook -/

/-- Lower end of the linear voltage-to-percentage map (`minVoltage`). -/
def minVoltage : ℚ := 3

/-- Upper end of the linear voltage-to-percentage map (`maxVoltage = 4.2`). -/
def maxVoltage : ℚ := 21 / 5

/-- The fixed linear map from battery voltage to percentage, clamped to
[0, 100]: `Math.max(0, Math.min(100, (v - minVoltage) / (maxVoltage - minVoltage) * 100))`. -/
def derivedPercentage (v : ℚ) : ℚ :=
  max 0 (min 100 ((v - minVoltage) / (maxVoltage - minVoltage) * 100))

/-- locationDataSchema.pre save: derive `batteryPercentage` from
`batteryVoltage` when the percentage is JS-falsy (absent or 0) and the
voltage is JS-truthy (`if (!this.batteryPercentage && this.batteryVoltage)`). -/
def normalizeBattery (loc : LocationData) : LocationData :=
  if !(numTruthy loc.batteryPercentage) && numTruthy (some loc.batteryVoltage) then
    { loc with batteryPercentage := some (derivedPercentage loc.batteryVoltage) }
  else loc

/-! ## Alert rule engine: checkAndCreateAlerts -/

/-- The dedup query `Alert.findOne({deviceId, alertType, isResolved:
false, timestamp: {$gte: now - windowMs}})`: an unresolved alert of the
same (device, type) raised within the window exists. -/
def recentUnresolvedExists (store : List Alert) (devId : String) (ty : AlertType)
    (now windowMs : Int) : Bool :=
  store.any fun a =>
    decide (a.deviceId = devId) && decide (a.alertType = ty) && !a.isResolved &&
      decide (now - windowMs ≤ a.timestamp)

/-- `device.batteryThreshold || 20`: JS falsy-or, so an absent or zero
threshold falls back to 20. -/
def effectiveBatteryThreshold (d : Device) : ℚ :=
  match d.batteryThreshold with
  | none => 20
  | some v => if v = 0 then 20 else v

/-- Low-battery severity: `locationData.batteryVoltage < 10 ? 'critical' : 'high'`. -/
def lowBatterySeverity (voltage : ℚ) : Severity :=
  if voltage < 10 then Severity.critical else Severity.high

/-- The alert document built by the low-battery rule.  The MongoDB
ObjectId is modelled as a fresh id. -/
def mkLowBatteryAlert (d : Device) (loc : LocationData) (freshId : Nat) (now : Int) : Alert :=
  { id := freshId
    deviceId := d.deviceId
    alertType := AlertType.low_battery
    severity := lowBatterySeverity loc.batteryVoltage
    title := "Low Battery Warning"
    timestamp := now }

/-- Temperature thresholds (`tempThresholds.low = -10`). -/
def tempLowThreshold : ℚ := -10

/-- Temperature thresholds (`tempThresholds.high = 60`). -/
def tempHighThreshold : ℚ := 60

/-- Temperature severity: `Math.abs(temp - (isHigh ? high : low)) > 20 ?
'critical' : 'high'`. -/
def temperatureSeverity (t : ℚ) : Severity :=
  let threshold := if t > tempHighThreshold then tempHighThreshold else tempLowThreshold
  if |t - threshold| > 20 then Severity.critical else Severity.high

/-- The alert document built by the temperature rule. -/
def mkTemperatureAlert (d : Device) (t : ℚ) (freshId : Nat) (now : Int) : Alert :=
  { id := freshId
    deviceId := d.deviceId
    alertType := AlertType.temperature
    severity := temperatureSeverity t
    title := (if t > tempHighThreshold then "High" else "Low") ++ " Temperature Alert"
    timestamp := now }

/-- Temperature half of `checkAndCreateAlerts`, with fault injection:
`fail i = true` means the i-th store operation executed inside the try
block throws; the surrounding catch then returns the alerts accumulated
so far (`created`) with no further writes.  Store operations are, in
order within this half: the dedup `findOne` and the `alert.save()`. -/
def temperatureRuleF (d : Device) (loc : LocationData) (now : Int) (fail : Nat → Bool)
    (created store : List Alert) (idx : Nat) : List Alert × List Alert :=
  match loc.temperature with
  | none => (created, store)
  | some t =>
    if t < tempLowThreshold ∨ t > tempHighThreshold then
      if fail idx then (created, store)
      else if recentUnresolvedExists store d.deviceId AlertType.temperature now (15 * 60 * 1000) then
        (created, store)
      else if fail (idx + 1) then (created, store)
      else
        let a := mkTemperatureAlert d t store.length now
        (created ++ [a], store ++ [a])
    else (created, store)

/-- `checkAndCreateAlerts(device, locationData)` with fault injection on
the store operations inside its try block (dedup `findOne`s and
`alert.save()`s, numbered in execution order).  Any such throw is caught
by the function's catch, which returns the alerts pushed so far.
Returns (created alerts, alert store after). -/
def checkAndCreateAlertsF (d : Device) (loc : LocationData) (store : List Alert)
    (now : Int) (fail : Nat → Bool) : List Alert × List Alert :=
  if d.alertSettings.lowBatteryEnabled ∧ loc.batteryVoltage < effectiveBatteryThreshold d then
    if fail 0 then ([], store)
    else if recentUnresolvedExists store d.deviceId AlertType.low_battery now (30 * 60 * 1000) then
      temperatureRuleF d loc now fail [] store 1
    else if fail 1 then ([], store)
    else
      let a := mkLowBatteryAlert d loc store.length now
      temperatureRuleF d loc now fail [a] (store ++ [a]) 2
  else
    temperatureRuleF d loc now fail [] store 0

/-- `checkAndCreateAlerts` on the fault-free path. -/
def checkAndCreateAlerts (d : Device) (loc : LocationData) (store : List Alert)
    (now : Int) : List Alert × List Alert :=
  checkAndCreateAlertsF d loc store now (fun _ => false)

/-! ## Identity state tracker and ingestion controller (updateDeviceData) -/

/-- `Device.findOneAndUpdate({deviceId}, {lastSeen: now, $setOnInsert:
{name: deviceId, isActive: true}}, {upsert: true, new: true})`: bump
`lastSeen`, creating the device with schema defaults on first contact.
Returns the updated device list and the (post-update) device. -/
def upsertDevice (devices : List Device) (devId : String) (now : Int) :
    List Device × Device :=
  match devices.find? (fun d => decide (d.deviceId = devId)) with
  | some d =>
    let d2 := { d with lastSeen := now }
    (devices.map (fun x => if x.deviceId = devId then { x with lastSeen := now } else x), d2)
  | none =>
    let d2 : Device := { deviceId := devId, name := devId, isActive := true, lastSeen := now }
    (devices ++ [d2], d2)

/-- The durable state the ingestion pipeline touches. -/
structure ServerState where
  devices : List Device
  samples : List LocationData
  alerts : List Alert
deriving Repr

/-- The ingestion success response body (`successResponse` with
`alertsCreated`).  Position echo and battery status are elided. -/
structure UpdateResponse where
  success : Bool
  statusCode : Nat
  alertsCreated : Nat
deriving DecidableEq, Repr

/-- `updateDeviceData` past validation: upsert the device, persist the
sample (running the pre-save normalization hook), run
`checkAndCreateAlerts` (whose store operations may throw, injected via
`fail`), respond 200 with `alertsCreated = alerts.length`. -/
def updateDeviceDataF (st : ServerState) (req : LocationData) (now : Int)
    (fail : Nat → Bool) : ServerState × UpdateResponse :=
  let devs := upsertDevice st.devices req.deviceId now
  let sample := normalizeBattery req
  let samples2 := st.samples ++ [sample]
  let checked := checkAndCreateAlertsF devs.2 sample st.alerts now fail
  (⟨devs.1, samples2, checked.2⟩, ⟨true, 200, checked.1.length⟩)

/-! ## Alert lifecycle commands (alertController) -/

/-- Derived status virtual (alertSchema.virtual status). -/
def alertStatus (a : Alert) : String :=
  if a.isResolved then "resolved"
  else if a.acknowledgedAt.isSome then "acknowledged"
  else "open"

/-- `if (x) field = x`: overwrite only with a truthy value. -/
def setIfTruthy (newVal old : Option String) : Option String :=
  if strTruthy newVal then newVal else old

/-- `resolveAlert` controller on the alert document it looked up:
404 when missing is handled at the store level; here the document
exists.  Archived (soft-deleted) documents are reported not found. -/
def resolveAlert (a : Alert) (now : Int) (resolvedBy notes : Option String) :
    Except AppError Alert :=
  if a.deletedAt.isSome then Except.error ⟨"Alert not found", 404⟩
  else if a.isResolved then Except.error ⟨"Alert is already resolved", 400⟩
  else Except.ok { a with
    isResolved := true
    resolvedAt := some now
    resolvedBy := setIfTruthy resolvedBy a.resolvedBy
    resolutionNotes := setIfTruthy notes a.resolutionNotes }

/-- `acknowledgeAlert` controller on the alert document it looked up. -/
def acknowledgeAlert (a : Alert) (now : Int) (ackBy : Option String) :
    Except AppError Alert :=
  if a.deletedAt.isSome then Except.error ⟨"Alert not found", 404⟩
  else if a.isResolved then Except.error ⟨"Cannot acknowledge a resolved alert", 400⟩
  else if a.acknowledgedAt.isSome then Except.error ⟨"Alert is already acknowledged", 400⟩
  else Except.ok { a with
    acknowledgedAt := some now
    acknowledgedBy := setIfTruthy ackBy a.acknowledgedBy }

/-! ## Archive, queries and statistics -/

/-- The `$group` counters of `getAlertStats` (trend and per-type
breakdown aggregate the same `$match` population). -/
structure AlertStats where
  total : Nat
  resolved : Nat
  acknowledged : Nat
  openCount : Nat
  critical : Nat
  high : Nat
  medium : Nat
  low : Nat
deriving DecidableEq, Repr

/-- The `$match` population of `getAlertStats`: `{deletedAt: null}`
(optional device/time filters elided, matching the list query's default). -/
def statsPopulation (store : List Alert) : List Alert :=
  store.filter (fun a => a.deletedAt.isNone)

/-- `getAlertStats` aggregation counters over the matched population. -/
def getAlertStats (store : List Alert) : AlertStats :=
  let m := statsPopulation store
  { total := m.length
    resolved := (m.filter (fun a => a.isResolved)).length
    acknowledged := (m.filter (fun a => a.acknowledgedAt.isSome)).length
    openCount := (m.filter (fun a => !a.isResolved && a.acknowledgedAt.isNone)).length
    critical := (m.filter (fun a => decide (a.severity = Severity.critical))).length
    high := (m.filter (fun a => decide (a.severity = Severity.high))).length
    medium := (m.filter (fun a => decide (a.severity = Severity.medium))).length
    low := (m.filter (fun a => decide (a.severity = Severity.low))).length }

/-! ## Rate governor (rateLimiter.js, deviceRateLimit) -/

/-- Per-key fixed-window counter: hit count plus the instant the window
resets (express-rate-limit in-memory store client). -/
structure WindowState where
  totalHits : Nat
  resetTime : Int
deriving DecidableEq, Repr

/-- One hit against a key's window: lazily start a new window when none
exists or the previous one has elapsed, else count into the current one. -/
def rlIncrement (w : Option WindowState) (now windowMs : Int) : WindowState :=
  match w with
  | none => ⟨1, now + windowMs⟩
  | some s => if now ≥ s.resetTime then ⟨1, now + windowMs⟩ else ⟨s.totalHits + 1, s.resetTime⟩

/-- A rate limiter configuration as built by `createRateLimiter`. -/
structure RateLimitConfig where
  windowMs : Int
  maxHits : Nat
  message : String
deriving Repr

/-- `deviceRateLimit`: 60 requests per 60 s window, keyed `device:<id>`. -/
def deviceRateLimitConfig : RateLimitConfig :=
  { windowMs := 60 * 1000
    maxHits := 60
    message := "Too many location updates. Please try again later." }

/-- The 429 body sent by the limiter's handler; `retryAfter =
Math.ceil(windowMs / 1000)` from the configured message object. -/
structure RateLimitRejection where
  statusCode : Nat
  retryAfter : Int
deriving DecidableEq, Repr

/-- One pass through a rate-limit middleware for one key: record the
hit, then reject with 429 and the configured retry-after when the count
exceeds the maximum. -/
def rateLimitStep (cfg : RateLimitConfig) (w : Option WindowState) (now : Int) :
    WindowState × Option RateLimitRejection :=
  let s := rlIncrement w now cfg.windowMs
  (s, if s.totalHits > cfg.maxHits then some ⟨429, (cfg.windowMs + 999) / 1000⟩ else none)

/-- Outcome of one ingestion request: rejected by admission control, or
handled by the controller. -/
inductive RouteOutcome
  | rejected (r : RateLimitRejection)
  | handled (resp : UpdateResponse)
deriving Repr

/-- POST /device/update-data for one device key: `deviceRateLimit` runs
first in the middleware chain, so a rejected request never reaches
`updateDeviceData` (no business write).  Auth/validation middlewares are
assumed to pass. -/
def ingestionRequest (w : Option WindowState) (st : ServerState) (req : LocationData)
    (now : Int) : WindowState × ServerState × RouteOutcome :=
  let stepped := rateLimitStep deviceRateLimitConfig w now
  match stepped.2 with
  | some r => (stepped.1, st, RouteOutcome.rejected r)
  | none =>
    let handled := updateDeviceDataF st req now (fun _ => false)
    (stepped.1, handled.1, RouteOutcome.handled handled.2)

/-- A sequence of ingestion requests (sample, arrival time) for one
device key, threading the window counter and the server state. -/
def runIngestion (w : Option WindowState) (st : ServerState) :
    List (LocationData × Int) → Option WindowState × ServerState × List RouteOutcome
  | [] => (w, st, [])
  | p :: rest =>
    let step := ingestionRequest w st p.1 p.2
    let tail := runIngestion (some step.1) step.2.1 rest
    (tail.1, tail.2.1, step.2.2 :: tail.2.2)

/-! ## Token verifier (jwtPayload middleware, decodeJwtPayload) -/

/-- Decoded JWT claim set as consumed by the pipeline.  Claim
timestamps (`iat`, `exp`, `nbf`) are seconds since the epoch. -/
structure JwtPayload where
  deviceId : Option String := none
  iss : Option String := none
  iat : Option Int := none
  exp : Option Int := none
  nbf : Option Int := none
deriving DecidableEq, Repr

/-- A presented compact token.  The embedding abstracts the
cryptography to two facts the verifier establishes: whether the compact
serialization parses, and whether its HMAC-SHA256 signature verifies
under the shared secret. -/
structure SignedToken where
  wellFormed : Bool
  signatureValid : Bool
  payload : JwtPayload
deriving DecidableEq, Repr

/-- The error classes thrown by the jsonwebtoken library that
`decodeJwtPayload` distinguishes by `error.name`. -/
inductive JwtError
  | jsonWebTokenError (msg : String)
  | tokenExpiredError (msg : String)
  | notBeforeError (msg : String)
deriving DecidableEq, Repr

/-- `maxAge: '5m'` of the verify call, in seconds. -/
def maxAgeSeconds : Int := 300

/-- `nbf > clockTimestamp` (not yet valid). -/
def nbfViolated (p : JwtPayload) (clock : Int) : Bool :=
  match p.nbf with
  | none => false
  | some nbf => decide (clock < nbf)

/-- `clockTimestamp >= exp` (expired). -/
def expViolated (p : JwtPayload) (clock : Int) : Bool :=
  match p.exp with
  | none => false
  | some e => decide (e ≤ clock)

/-- `jwt.verify(token, secret, {algorithms: ['HS256'], maxAge: '5m'})`
as called by `decodeJwtPayload`: the jsonwebtoken check sequence with
zero clock tolerance — parse, signature, `nbf`, `exp`, then the `maxAge`
bound `clockTimestamp >= iat + 300` (an `iat` claim is mandatory once
`maxAge` is set).  `clock` is seconds. -/
def jwtVerify (tok : SignedToken) (clock : Int) : Except JwtError JwtPayload :=
  if !tok.wellFormed then Except.error (JwtError.jsonWebTokenError "jwt malformed")
  else if !tok.signatureValid then Except.error (JwtError.jsonWebTokenError "invalid signature")
  else if nbfViolated tok.payload clock then Except.error (JwtError.notBeforeError "jwt not active")
  else if expViolated tok.payload clock then Except.error (JwtError.tokenExpiredError "jwt expired")
  else
    match tok.payload.iat with
    | none => Except.error (JwtError.jsonWebTokenError "iat required when maxAge is specified")
    | some iat =>
      if clock ≥ iat + maxAgeSeconds then
        Except.error (JwtError.tokenExpiredError "maxAge exceeded")
      else Except.ok tok.payload

/-- The request body shapes `decodeJwtPayload` distinguishes: a raw
token string, a `{token: ...}` wrapper, a plain JSON object without a
`token` field (legacy skip path), or nothing usable. -/
inductive RequestBody
  | rawToken (tok : SignedToken)
  | wrappedToken (tok : SignedToken)
  | jsonObject (fields : JwtPayload)
  | noBody
deriving Repr

/-- `decodeJwtPayload` middleware: extract the token, verify it, and
map each jsonwebtoken error class to an `AppError` (JsonWebTokenError →
400, TokenExpiredError → 401, NotBeforeError → 401); a missing token is
a 400; a plain JSON object body skips decoding. -/
def decodeJwtPayload (body : RequestBody) (clock : Int) : Except AppError JwtPayload :=
  match body with
  | RequestBody.jsonObject fields => Except.ok fields
  | RequestBody.noBody => Except.error ⟨"JWT token required in request body", 400⟩
  | RequestBody.rawToken tok | RequestBody.wrappedToken tok =>
    match jwtVerify tok clock with
    | Except.ok p => Except.ok p
    | Except.error (JwtError.jsonWebTokenError _) =>
      Except.error ⟨"Invalid JWT token format", 400⟩
    | Except.error (JwtError.tokenExpiredError _) =>
      Except.error ⟨"JWT token has expired", 401⟩
    | Except.error (JwtError.notBeforeError _) =>
      Except.error ⟨"JWT token not yet valid", 401⟩

/-! ## Device access control (auth.js, validateDeviceAccess) -/

/-- An HTTP response as produced by the apiResponse helpers. -/
structure HttpResponse where
  statusCode : Nat
  message : String
deriving DecidableEq, Repr

/-- `unauthorizedResponse`: `apiResponse(res, 401, message)`. -/
def unauthorizedResponse (msg : String) : HttpResponse := ⟨401, msg⟩

/-- The request facts `validateDeviceAccess` consults. -/
structure AuthContext where
  requestDeviceId : Option String
  authenticatedDeviceId : Option String
  apiKeyType : Option String
deriving Repr

/-- `validateDeviceAccess` middleware: skip when the request names no
device or the caller holds the master API key; otherwise reject a
request whose device id differs from the authenticated one.  Returns
`none` to proceed, `some response` to reject. -/
def validateDeviceAccess (ctx : AuthContext) : Option HttpResponse :=
  if !(strTruthy ctx.requestDeviceId) then none
  else if ctx.apiKeyType = some "master" then none
  else if strTruthy ctx.authenticatedDeviceId &&
      !(decide (ctx.requestDeviceId = ctx.authenticatedDeviceId)) then
    some (unauthorizedResponse "Access denied: Device can only access its own data")
  else none

/-! ## Concrete fixtures for the spec scenarios -/

/-- The 20%-threshold identity of the end-to-end scenario, with schema
defaults. -/
def devDEV1 : Device :=
  { deviceId := "DEV1"
    name := "Device 1"
    isActive := true
    lastSeen := 0
    batteryThreshold := some 20
    alertSettings := {} }

/-- A low-power-triggering sample (reading 15 < threshold 20) with no
temperature channel, captured at `t`. -/
def lowPowerSample (t : Int) : LocationData :=
  { deviceId := "DEV1", batteryVoltage := 15, timestamp := t }

/-- The end-to-end scenario's sample: power reading 3.1 on DEV1. -/
def lowPowerSample31 (t : Int) : LocationData :=
  { deviceId := "DEV1", batteryVoltage := 31 / 10, timestamp := t }

/-- The alert the engine raises for `lowPowerSample t0` on an empty store. -/
def dev1FirstAlert (t0 : Int) : Alert :=
  mkLowBatteryAlert devDEV1 (lowPowerSample t0) 0 t0

/-- A temperature-triggering sample (70 degrees > high threshold 60)
whose power reading (25 >= threshold 20) does not trigger the
low-power rule. -/
def hotSample (t : Int) : LocationData :=
  { deviceId := "DEV1", batteryVoltage := 25, temperature := some 70, timestamp := t }

/-- The alert the engine raises for `hotSample t0` on an empty store. -/
def dev1TempAlert (t0 : Int) : Alert :=
  mkTemperatureAlert devDEV1 70 0 t0

/-- A sample carrying an explicit percentage of 0, a JS-falsy value. -/
def zeroPercentSample : LocationData :=
  { deviceId := "DEV1", batteryVoltage := 4, batteryPercentage := some 0, timestamp := 0 }

/-- A fully reported sample: explicit nonzero percentage. -/
def reportedSample : LocationData :=
  { deviceId := "DEV1", batteryVoltage := 18 / 5, batteryPercentage := some 50, timestamp := 0 }

/-- The same sample with the percentage channel absent. -/
def bareSample : LocationData :=
  { deviceId := "DEV1", batteryVoltage := 18 / 5, timestamp := 0 }

/-- An open alert fixture. -/
def openAlertFixture : Alert :=
  { id := 1, deviceId := "DEV1", alertType := AlertType.low_battery,
    severity := Severity.high, title := "Low Battery Warning", timestamp := 0 }

/-- A token with a far-future exp claim, signed and well-formed. -/
def longLivedToken : SignedToken :=
  { wellFormed := true
    signatureValid := true
    payload := { deviceId := some "DEV1", iat := some 0, exp := some 1000000 } }

/-- A well-formed token whose signature does not verify. -/
def badSignatureToken : SignedToken :=
  { wellFormed := true
    signatureValid := false
    payload := { deviceId := some "DEV1", iat := some 1000, exp := some 1290 } }

/-- An expired token: exp in the past at clock 2000. -/
def expiredToken : SignedToken :=
  { wellFormed := true
    signatureValid := true
    payload := { deviceId := some "DEV1", iat := some 1000, exp := some 1500 } }

/-- A not-yet-valid token: nbf in the future at clock 2000. -/
def notYetValidToken : SignedToken :=
  { wellFormed := true
    signatureValid := true
    payload := { deviceId := some "DEV1", iat := some 1900, exp := some 2200,
                 nbf := some 2100 } }

/-- A malformed token. -/
def malformedToken : SignedToken :=
  { wellFormed := false, signatureValid := false, payload := {} }

/-- An empty server state. -/
def emptyServerState : ServerState := ⟨[], [], []⟩

/-- 59 further in-window requests at the window-opening instant. -/
def burstRequests : List (LocationData × Int) := List.replicate 59 (bareSample, 0)

/-! ## Theorems -/

/-- Whatever faults occur, the temperature half hands back its
accumulator and the store extended by the same (possibly empty) batch
of new alerts. -/
theorem temperatureRuleF_append (d : Device) (loc : LocationData) (now : Int)
    (fail : Nat → Bool) (created store : List Alert) (idx : Nat) :
    ∃ newAlerts, temperatureRuleF d loc now fail created store idx =
      (created ++ newAlerts, store ++ newAlerts) := by
  cases htemp : loc.temperature with
  | none => exact ⟨[], by simp [temperatureRuleF, htemp]⟩
  | some t =>
    unfold temperatureRuleF
    simp only [htemp]
    by_cases h1 : t < tempLowThreshold ∨ t > tempHighThreshold
    · rw [if_pos h1]
      split_ifs
      · exact ⟨[], by simp⟩
      · exact ⟨[], by simp⟩
      · exact ⟨[], by simp⟩
      · exact ⟨[mkTemperatureAlert d t store.length now], rfl⟩
    · rw [if_neg h1]
      exact ⟨[], by simp⟩

/-- Whatever faults occur, checkAndCreateAlerts returns exactly the
alerts appended to the store. -/
theorem checkAndCreateAlertsF_append (d : Device) (loc : LocationData)
    (store : List Alert) (now : Int) (fail : Nat → Bool) :
    ∃ newAlerts, checkAndCreateAlertsF d loc store now fail =
      (newAlerts, store ++ newAlerts) := by
  unfold checkAndCreateAlertsF
  split_ifs with h1 h2 h3 h4
  · exact ⟨[], by simp⟩
  · obtain ⟨n, hn⟩ := temperatureRuleF_append d loc now fail [] store 1
    exact ⟨n, by simpa using hn⟩
  · exact ⟨[], by simp⟩
  · obtain ⟨n, hn⟩ := temperatureRuleF_append d loc now fail
      [mkLowBatteryAlert d loc store.length now]
      (store ++ [mkLowBatteryAlert d loc store.length now]) 2
    refine ⟨mkLowBatteryAlert d loc store.length now :: n, ?_⟩
    simpa using hn
  · obtain ⟨n, hn⟩ := temperatureRuleF_append d loc now fail [] store 0
    exact ⟨n, by simpa using hn⟩

/-- Every alert the temperature half adds beyond its accumulator is a
temperature alert. -/
theorem temperatureRuleF_types (d : Device) (loc : LocationData) (now : Int)
    (fail : Nat → Bool) (created store : List Alert) (idx : Nat) :
    ∀ a ∈ (temperatureRuleF d loc now fail created store idx).1,
      a ∈ created ∨ a.alertType = AlertType.temperature := by
  intro a ha
  cases htemp : loc.temperature with
  | none =>
    simp only [temperatureRuleF, htemp] at ha
    exact Or.inl ha
  | some t =>
    unfold temperatureRuleF at ha
    simp only [htemp] at ha
    by_cases h1 : t < tempLowThreshold ∨ t > tempHighThreshold
    · rw [if_pos h1] at ha
      split_ifs at ha
      · exact Or.inl ha
      · exact Or.inl ha
      · exact Or.inl ha
      · rcases List.mem_append.mp ha with h2 | h2
        · exact Or.inl h2
        · simp only [List.mem_singleton] at h2
          exact Or.inr (by simp [h2, mkTemperatureAlert])
    · rw [if_neg h1] at ha
      exact Or.inl ha

/-- With an unresolved temperature alert for the identity inside the
15-minute window, the temperature half suppresses: nothing is created
and the store is untouched. -/
theorem temperatureRuleF_suppressed (d : Device) (loc : LocationData) (now : Int)
    (created store : List Alert) (idx : Nat)
    (h : recentUnresolvedExists store d.deviceId AlertType.temperature now
      (15 * 60 * 1000) = true) :
    temperatureRuleF d loc now (fun _ => false) created store idx = (created, store) := by
  cases htemp : loc.temperature with
  | none => simp [temperatureRuleF, htemp]
  | some t =>
    norm_num at h
    unfold temperatureRuleF
    simp only [htemp]
    by_cases h1 : t < tempLowThreshold ∨ t > tempHighThreshold
    · simp [h1, h]
    · simp [h1]

/-- C1: Alert deduplication window.  (a) Whenever an unresolved
low-battery alert for the identity raised within its 30-minute window
exists, the engine raises no low-battery alert; (b) whenever an
unresolved temperature alert for the identity raised within its
15-minute window exists, the engine raises no temperature alert;
(c) the engine never mutates stored alerts — the store after a pass is
the store before with exactly the newly raised alerts appended.
Scenarios: a low-power sample at `t0` on a fresh store raises exactly
one alert, the same sample 5 minutes later is suppressed with the store
unchanged, and 31 minutes after `t0` a second alert is raised; a
temperature sample at `t0` raises one alert, the same sample 14 minutes
later is suppressed with the store unchanged, and 16 minutes after `t0`
a second alert is raised. -/
theorem alert_dedup_window (t0 : Int) :
    (∀ (d : Device) (loc : LocationData) (store : List Alert) (now : Int),
      recentUnresolvedExists store d.deviceId AlertType.low_battery now
        (30 * 60 * 1000) = true →
      ∀ a ∈ (checkAndCreateAlerts d loc store now).1,
        a.alertType ≠ AlertType.low_battery) ∧
    (∀ (d : Device) (loc : LocationData) (store : List Alert) (now : Int),
      recentUnresolvedExists store d.deviceId AlertType.temperature now
        (15 * 60 * 1000) = true →
      ∀ a ∈ (checkAndCreateAlerts d loc store now).1,
        a.alertType ≠ AlertType.temperature) ∧
    (∀ (d : Device) (loc : LocationData) (store : List Alert) (now : Int),
      (checkAndCreateAlerts d loc store now).2 =
        store ++ (checkAndCreateAlerts d loc store now).1) ∧
    checkAndCreateAlerts devDEV1 (lowPowerSample t0) [] t0 =
      ([dev1FirstAlert t0], [dev1FirstAlert t0]) ∧
    checkAndCreateAlerts devDEV1 (lowPowerSample (t0 + 5 * 60 * 1000))
      [dev1FirstAlert t0] (t0 + 5 * 60 * 1000) = ([], [dev1FirstAlert t0]) ∧
    (checkAndCreateAlerts devDEV1 (lowPowerSample (t0 + 31 * 60 * 1000))
      [dev1FirstAlert t0] (t0 + 31 * 60 * 1000)).1.length = 1 ∧
    checkAndCreateAlerts devDEV1 (hotSample t0) [] t0 =
      ([dev1TempAlert t0], [dev1TempAlert t0]) ∧
    checkAndCreateAlerts devDEV1 (hotSample (t0 + 14 * 60 * 1000))
      [dev1TempAlert t0] (t0 + 14 * 60 * 1000) = ([], [dev1TempAlert t0]) ∧
    (checkAndCreateAlerts devDEV1 (hotSample (t0 + 16 * 60 * 1000))
      [dev1TempAlert t0] (t0 + 16 * 60 * 1000)).1.length = 1 := by
  refine ⟨?_, ?_, ?_, ?_, ?_, ?_, ?_, ?_, ?_⟩
  · -- (a) low-battery suppression inside the 30-minute window
    intro d loc store now h a ha
    norm_num at h
    by_cases hb : d.alertSettings.lowBatteryEnabled ∧
        loc.batteryVoltage < effectiveBatteryThreshold d
    · have heq : checkAndCreateAlerts d loc store now =
          temperatureRuleF d loc now (fun _ => false) [] store 1 := by
        simp [checkAndCreateAlerts, checkAndCreateAlertsF, hb, h]
      rw [heq] at ha
      rcases temperatureRuleF_types d loc now _ [] store 1 a ha with h0 | htyp
      · simp at h0
      · simp [htyp]
    · have heq : checkAndCreateAlerts d loc store now =
          temperatureRuleF d loc now (fun _ => false) [] store 0 := by
        simp [checkAndCreateAlerts, checkAndCreateAlertsF, hb]
      rw [heq] at ha
      rcases temperatureRuleF_types d loc now _ [] store 0 a ha with h0 | htyp
      · simp at h0
      · simp [htyp]
  · -- (b) temperature suppression inside the 15-minute window
    intro d loc store now h a ha
    by_cases hb : d.alertSettings.lowBatteryEnabled ∧
        loc.batteryVoltage < effectiveBatteryThreshold d
    · by_cases hr : recentUnresolvedExists store d.deviceId AlertType.low_battery now
          1800000 = true
      · have heq : checkAndCreateAlerts d loc store now = ([], store) := by
          simp [checkAndCreateAlerts, checkAndCreateAlertsF, hb, hr,
            temperatureRuleF_suppressed d loc now [] store 1 h]
        rw [heq] at ha
        simp at ha
      · have hrec2 : recentUnresolvedExists
            (store ++ [mkLowBatteryAlert d loc store.length now]) d.deviceId
            AlertType.temperature now (15 * 60 * 1000) = true := by
          simp only [recentUnresolvedExists] at h ⊢
          rw [List.any_append, h, Bool.true_or]
        have heq : checkAndCreateAlerts d loc store now =
            ([mkLowBatteryAlert d loc store.length now],
              store ++ [mkLowBatteryAlert d loc store.length now]) := by
          simp [checkAndCreateAlerts, checkAndCreateAlertsF, hb, hr,
            temperatureRuleF_suppressed d loc now
              [mkLowBatteryAlert d loc store.length now]
              (store ++ [mkLowBatteryAlert d loc store.length now]) 2 hrec2]
        rw [heq] at ha
        simp only [List.mem_singleton] at ha
        simp [ha, mkLowBatteryAlert]
    · have heq : checkAndCreateAlerts d loc store now = ([], store) := by
        simp [checkAndCreateAlerts, checkAndCreateAlertsF, hb,
          temperatureRuleF_suppressed d loc now [] store 0 h]
      rw [heq] at ha
      simp at ha
  · -- (c) no mutation: append-only store
    intro d loc store now
    obtain ⟨n, hn⟩ := checkAndCreateAlertsF_append d loc store now (fun _ => false)
    simp [checkAndCreateAlerts, hn]
  · norm_num [checkAndCreateAlerts, checkAndCreateAlertsF, temperatureRuleF,
      lowPowerSample, devDEV1, effectiveBatteryThreshold, recentUnresolvedExists,
      dev1FirstAlert, mkLowBatteryAlert, lowBatterySeverity]
  · have hrec : recentUnresolvedExists [dev1FirstAlert t0] "DEV1" AlertType.low_battery
        (t0 + 300000) 1800000 = true := by
      simp [recentUnresolvedExists, dev1FirstAlert, mkLowBatteryAlert, devDEV1]
    norm_num [checkAndCreateAlerts, checkAndCreateAlertsF, temperatureRuleF,
      lowPowerSample, devDEV1, effectiveBatteryThreshold, hrec]
  · have hrec : recentUnresolvedExists [dev1FirstAlert t0] "DEV1" AlertType.low_battery
        (t0 + 1860000) 1800000 = false := by
      simp [recentUnresolvedExists, dev1FirstAlert, mkLowBatteryAlert, devDEV1]
    norm_num [checkAndCreateAlerts, checkAndCreateAlertsF, temperatureRuleF,
      lowPowerSample, devDEV1, effectiveBatteryThreshold, hrec]
  · norm_num [checkAndCreateAlerts, checkAndCreateAlertsF, temperatureRuleF,
      hotSample, devDEV1, effectiveBatteryThreshold, recentUnresolvedExists,
      dev1TempAlert, tempLowThreshold, tempHighThreshold]
  · have hrec : recentUnresolvedExists [dev1TempAlert t0] "DEV1" AlertType.temperature
        (t0 + 840000) 900000 = true := by
      simp [recentUnresolvedExists, dev1TempAlert, mkTemperatureAlert, devDEV1]
    norm_num [checkAndCreateAlerts, checkAndCreateAlertsF, temperatureRuleF,
      hotSample, devDEV1, effectiveBatteryThreshold, tempLowThreshold,
      tempHighThreshold, hrec]
  · have hrec : recentUnresolvedExists [dev1TempAlert t0] "DEV1" AlertType.temperature
        (t0 + 960000) 900000 = false := by
      simp [recentUnresolvedExists, dev1TempAlert, mkTemperatureAlert, devDEV1]
    norm_num [checkAndCreateAlerts, checkAndCreateAlertsF, temperatureRuleF,
      hotSample, devDEV1, effectiveBatteryThreshold, tempLowThreshold,
      tempHighThreshold, hrec]

/-- Witness for C1 at `t0 = 0`, discharging both rules' suppression
hypotheses on concrete one-alert stores. -/
theorem alert_dedup_window_witness :
    (∀ a ∈ (checkAndCreateAlerts devDEV1 (lowPowerSample 0) [dev1FirstAlert 0] 0).1,
      a.alertType ≠ AlertType.low_battery) ∧
    (∀ a ∈ (checkAndCreateAlerts devDEV1 (hotSample 0) [dev1TempAlert 0] 0).1,
      a.alertType ≠ AlertType.temperature) :=
  ⟨(alert_dedup_window 0).1 devDEV1 (lowPowerSample 0) [dev1FirstAlert 0] 0 (by decide),
   (alert_dedup_window 0).2.1 devDEV1 (hotSample 0) [dev1TempAlert 0] 0 (by decide)⟩

/-- C4 counterexample: the engine compares the raw power reading 3.1
against the hard floor 10, so the scenario sample raises an alert of
severity critical, not high as the claim states. -/
theorem low_power_31_counterexample :
    (checkAndCreateAlerts devDEV1 (lowPowerSample31 0) [] 0).1.map Alert.severity
        ≠ [Severity.high] ∧
    (checkAndCreateAlerts devDEV1 (lowPowerSample31 0) [] 0).1.map Alert.severity
        = [Severity.critical] := by
  have h : (checkAndCreateAlerts devDEV1 (lowPowerSample31 0) [] 0).1.map Alert.severity
      = [Severity.critical] := by
    norm_num [checkAndCreateAlerts, checkAndCreateAlertsF, temperatureRuleF,
      lowPowerSample31, devDEV1, effectiveBatteryThreshold, recentUnresolvedExists,
      mkLowBatteryAlert, lowBatterySeverity]
  rw [h]
  exact ⟨by simp, rfl⟩

/-- C4 (amended): a low-power alert is raised when the reading is below
the identity's effective threshold (default 20), with severity critical
below the hard floor 10 and high otherwise; the 3.1 sample therefore
raises one low-power alert of severity critical. -/
theorem low_power_severity (d : Device) (loc : LocationData) (now : Int)
    (hen : d.alertSettings.lowBatteryEnabled = true)
    (hcond : loc.batteryVoltage < effectiveBatteryThreshold d)
    (htemp : loc.temperature = none) :
    (checkAndCreateAlerts d loc [] now).1.map Alert.severity =
      [if loc.batteryVoltage < 10 then Severity.critical else Severity.high] ∧
    (checkAndCreateAlerts devDEV1 (lowPowerSample31 0) [] 0).1.map Alert.severity =
      [Severity.critical] := by
  constructor
  · simp [checkAndCreateAlerts, checkAndCreateAlertsF, temperatureRuleF, htemp,
      recentUnresolvedExists, mkLowBatteryAlert, lowBatterySeverity, hen, hcond]
  · norm_num [checkAndCreateAlerts, checkAndCreateAlertsF, temperatureRuleF,
      lowPowerSample31, devDEV1, effectiveBatteryThreshold, recentUnresolvedExists,
      mkLowBatteryAlert, lowBatterySeverity]

/-- Witness for C4's amended theorem at the scenario input. -/
theorem low_power_severity_witness :
    (checkAndCreateAlerts devDEV1 (lowPowerSample31 0) [] 0).1.map Alert.severity =
      [if (lowPowerSample31 0).batteryVoltage < 10 then Severity.critical
       else Severity.high] ∧
    (checkAndCreateAlerts devDEV1 (lowPowerSample31 0) [] 0).1.map Alert.severity =
      [Severity.critical] :=
  low_power_severity devDEV1 (lowPowerSample31 0) 0 rfl
    (by norm_num [lowPowerSample31, effectiveBatteryThreshold, devDEV1]) rfl

/-- C6 counterexample: the pre-save hook guards with
`!this.batteryPercentage`, so an explicit percentage of 0 is overwritten
by the voltage-derived value instead of being left unchanged. -/
theorem battery_normalize_counterexample :
    zeroPercentSample.batteryPercentage = some 0 ∧
    (normalizeBattery zeroPercentSample).batteryPercentage = some (250 / 3) ∧
    (normalizeBattery zeroPercentSample).batteryPercentage ≠ some 0 := by
  norm_num [zeroPercentSample, normalizeBattery, numTruthy, derivedPercentage,
    minVoltage, maxVoltage, min_def, max_def]

/-- C6 (amended): normalizing a sample with an explicit nonzero power
percentage leaves it (and the whole record) unchanged; normalizing one
without a percentage and with nonzero voltage derives the percentage by
the fixed clamped linear map (which sends 3.6 V to 50%); and
normalization is idempotent. -/
theorem battery_normalize (loc loc2 : LocationData) (p : ℚ)
    (hp : loc.batteryPercentage = some p) (hpz : p ≠ 0)
    (h2 : loc2.batteryPercentage = none) (hv : loc2.batteryVoltage ≠ 0) :
    normalizeBattery loc = loc ∧
    (normalizeBattery loc2).batteryPercentage =
      some (derivedPercentage loc2.batteryVoltage) ∧
    (∀ l : LocationData, normalizeBattery (normalizeBattery l) = normalizeBattery l) ∧
    derivedPercentage (18 / 5) = 50 := by
  refine ⟨?_, ?_, ?_,
    by norm_num [derivedPercentage, minVoltage, maxVoltage, min_def, max_def]⟩
  · simp [normalizeBattery, numTruthy, hp, hpz]
  · simp [normalizeBattery, numTruthy, h2, hv]
  · intro l
    by_cases hb : numTruthy l.batteryPercentage
    · simp [normalizeBattery, hb]
    · by_cases hvl : numTruthy (some l.batteryVoltage)
      · by_cases hd : numTruthy (some (derivedPercentage l.batteryVoltage))
        · simp [normalizeBattery, hb, hvl, hd]
        · simp [normalizeBattery, hb, hvl, hd]
      · simp [normalizeBattery, hb, hvl]

/-- Witness for C6's amended theorem at concrete samples. -/
theorem battery_normalize_witness :
    normalizeBattery reportedSample = reportedSample ∧
    (normalizeBattery bareSample).batteryPercentage =
      some (derivedPercentage bareSample.batteryVoltage) ∧
    (∀ l : LocationData, normalizeBattery (normalizeBattery l) = normalizeBattery l) ∧
    derivedPercentage (18 / 5) = 50 :=
  battery_normalize reportedSample bareSample 50 rfl (by norm_num) rfl
    (by norm_num [bareSample])

/-- C3: lifecycle legality.  From an open, unarchived alert: resolving
then acknowledging fails with the illegal-transition 400 (and resolving
again also fails with 400), while acknowledging then resolving succeeds
and the derived status of the result reads "resolved". -/
theorem alert_state_machine (a : Alert) (t1 t2 : Int) (u v w : Option String)
    (hdel : a.deletedAt = none) (hres : a.isResolved = false)
    (hack : a.acknowledgedAt = none) :
    (∀ a1, resolveAlert a t1 u v = Except.ok a1 →
      acknowledgeAlert a1 t2 w = Except.error ⟨"Cannot acknowledge a resolved alert", 400⟩ ∧
      resolveAlert a1 t2 u v = Except.error ⟨"Alert is already resolved", 400⟩) ∧
    (∃ a2 a3, acknowledgeAlert a t1 w = Except.ok a2 ∧
      acknowledgeAlert a2 t2 w = Except.error ⟨"Alert is already acknowledged", 400⟩ ∧
      resolveAlert a2 t2 u v = Except.ok a3 ∧
      alertStatus a3 = "resolved" ∧ a3.resolvedAt = some t2 ∧
      a3.acknowledgedAt = some t1) := by
  constructor
  · intro a1 h1
    simp [resolveAlert, hdel, hres] at h1
    constructor
    · simp [acknowledgeAlert, ← h1, hdel]
    · simp [resolveAlert, ← h1, hdel]
  · have h1 : acknowledgeAlert a t1 w = Except.ok { a with
        acknowledgedAt := some t1
        acknowledgedBy := setIfTruthy w a.acknowledgedBy } := by
      simp [acknowledgeAlert, hdel, hres, hack]
    have h2 : resolveAlert { a with
        acknowledgedAt := some t1
        acknowledgedBy := setIfTruthy w a.acknowledgedBy } t2 u v = Except.ok { a with
          isResolved := true
          resolvedAt := some t2
          resolvedBy := setIfTruthy u a.resolvedBy
          resolutionNotes := setIfTruthy v a.resolutionNotes
          acknowledgedAt := some t1
          acknowledgedBy := setIfTruthy w a.acknowledgedBy } := by
      simp [resolveAlert, hdel, hres]
    refine ⟨_, _, h1, ?_, h2, ?_, ?_, ?_⟩
    · simp [acknowledgeAlert, hdel, hres]
    · simp [alertStatus]
    · simp
    · simp

/-- Witness for C3 at a concrete open alert. -/
theorem alert_state_machine_witness :
    (openAlertFixture.deletedAt = none ∧ openAlertFixture.isResolved = false ∧
      openAlertFixture.acknowledgedAt = none) ∧
    ((∀ a1, resolveAlert openAlertFixture 1 none none = Except.ok a1 →
      acknowledgeAlert a1 2 none = Except.error ⟨"Cannot acknowledge a resolved alert", 400⟩ ∧
      resolveAlert a1 2 none none = Except.error ⟨"Alert is already resolved", 400⟩) ∧
    (∃ a2 a3, acknowledgeAlert openAlertFixture 1 none = Except.ok a2 ∧
      acknowledgeAlert a2 2 none = Except.error ⟨"Alert is already acknowledged", 400⟩ ∧
      resolveAlert a2 2 none none = Except.ok a3 ∧
      alertStatus a3 = "resolved" ∧ a3.resolvedAt = some 2 ∧
      a3.acknowledgedAt = some 1)) :=
  ⟨⟨rfl, rfl, rfl⟩, alert_state_machine openAlertFixture 1 2 none none none rfl rfl rfl⟩

/-- C2: token lifetime invariant.  Under the verify call's
`maxAge: '5m'`, any token verified more than 300 seconds after its
`iat` fails, whatever its `exp` claim says. -/
theorem token_lifetime (tok : SignedToken) (clock iatv : Int)
    (hiat : tok.payload.iat = some iatv) (hlate : iatv + 300 < clock) :
    ∀ p, jwtVerify tok clock ≠ Except.ok p := by
  intro p h
  simp only [jwtVerify, maxAgeSeconds, hiat] at h
  split_ifs at h
  all_goals simp_all
  all_goals omega

/-- Witness for C2: the long-lived token still fails at clock 301 s. -/
theorem token_lifetime_witness :
    jwtVerify longLivedToken 301 ≠ Except.ok longLivedToken.payload :=
  token_lifetime longLivedToken 301 0 rfl (by decide) longLivedToken.payload

/-- C8 counterexample: a fresh token with a bad signature raises
JsonWebTokenError, which decodeJwtPayload maps to HTTP 400, not the
claimed 401. -/
theorem token_taxonomy_counterexample :
    decodeJwtPayload (RequestBody.rawToken badSignatureToken) 1001 =
      Except.error ⟨"Invalid JWT token format", 400⟩ ∧ (400 : Nat) ≠ 401 :=
  ⟨rfl, by decide⟩

/-- C8 (amended): the failure taxonomy of token-wrapped submissions is:
bad-signature and malformed tokens → 400 "Invalid JWT token format"
(both surface as JsonWebTokenError); expired → 401 with its own reason;
not-yet-valid → 401 with its own, distinct reason; missing token → 400. -/
theorem token_failure_taxonomy (tokS tokM tokE tokN : SignedToken) (clock : Int)
    (hsw : tokS.wellFormed = true) (hss : tokS.signatureValid = false)
    (hmw : tokM.wellFormed = false)
    (hew : tokE.wellFormed = true) (hes : tokE.signatureValid = true)
    (henbf : tokE.payload.nbf = none)
    (hee : ∃ e, tokE.payload.exp = some e ∧ e ≤ clock)
    (hnw : tokN.wellFormed = true) (hns : tokN.signatureValid = true)
    (hnn : ∃ n, tokN.payload.nbf = some n ∧ clock < n) :
    decodeJwtPayload (RequestBody.rawToken tokS) clock =
      Except.error ⟨"Invalid JWT token format", 400⟩ ∧
    decodeJwtPayload (RequestBody.rawToken tokM) clock =
      Except.error ⟨"Invalid JWT token format", 400⟩ ∧
    decodeJwtPayload (RequestBody.rawToken tokE) clock =
      Except.error ⟨"JWT token has expired", 401⟩ ∧
    decodeJwtPayload (RequestBody.rawToken tokN) clock =
      Except.error ⟨"JWT token not yet valid", 401⟩ ∧
    decodeJwtPayload RequestBody.noBody clock =
      Except.error ⟨"JWT token required in request body", 400⟩ := by
  obtain ⟨e, hexp, hle⟩ := hee
  obtain ⟨n, hnbf, hlt⟩ := hnn
  refine ⟨?_, ?_, ?_, ?_, rfl⟩
  · simp [decodeJwtPayload, jwtVerify, hsw, hss]
  · simp [decodeJwtPayload, jwtVerify, hmw]
  · simp [decodeJwtPayload, jwtVerify, hew, hes, nbfViolated, expViolated,
      henbf, hexp, hle]
  · simp [decodeJwtPayload, jwtVerify, hnw, hns, nbfViolated, hnbf, hlt]

/-- Witness for C8's amended theorem at concrete tokens and clock 2000. -/
theorem token_failure_taxonomy_witness :
    decodeJwtPayload (RequestBody.rawToken badSignatureToken) 2000 =
      Except.error ⟨"Invalid JWT token format", 400⟩ ∧
    decodeJwtPayload (RequestBody.rawToken malformedToken) 2000 =
      Except.error ⟨"Invalid JWT token format", 400⟩ ∧
    decodeJwtPayload (RequestBody.rawToken expiredToken) 2000 =
      Except.error ⟨"JWT token has expired", 401⟩ ∧
    decodeJwtPayload (RequestBody.rawToken notYetValidToken) 2000 =
      Except.error ⟨"JWT token not yet valid", 401⟩ ∧
    decodeJwtPayload RequestBody.noBody 2000 =
      Except.error ⟨"JWT token required in request body", 400⟩ :=
  token_failure_taxonomy badSignatureToken malformedToken expiredToken
    notYetValidToken 2000 rfl rfl rfl rfl rfl rfl ⟨1500, rfl, by decide⟩
    rfl rfl ⟨2100, rfl, by decide⟩

/-- C9 counterexample: a caller submitting for a different identity than
its credential is rejected through unauthorizedResponse, i.e. HTTP 401,
not the claimed 403. -/
theorem identity_mismatch_counterexample :
    (validateDeviceAccess
      { requestDeviceId := some "DEVA", authenticatedDeviceId := some "DEVB",
        apiKeyType := some "standard" }).map HttpResponse.statusCode = some 401 ∧
    (401 : Nat) ≠ 403 :=
  ⟨rfl, by decide⟩

/-- C9 (amended): a non-master caller whose request names a device other
than the one its credential authenticates is rejected with HTTP 401 and
the access-denied message. -/
theorem identity_mismatch_rejected (reqId authId : String) (keyType : Option String)
    (hreq : reqId ≠ "") (hauth : authId ≠ "") (hkey : keyType ≠ some "master")
    (hne : reqId ≠ authId) :
    validateDeviceAccess
      { requestDeviceId := some reqId, authenticatedDeviceId := some authId,
        apiKeyType := keyType } =
      some ⟨401, "Access denied: Device can only access its own data"⟩ := by
  simp [validateDeviceAccess, strTruthy, unauthorizedResponse, hreq, hauth, hkey, hne]

/-- Witness for C9's amended theorem. -/
theorem identity_mismatch_rejected_witness :
    validateDeviceAccess
      { requestDeviceId := some "DEVA", authenticatedDeviceId := some "DEVB",
        apiKeyType := some "standard" } =
      some ⟨401, "Access denied: Device can only access its own data"⟩ :=
  identity_mismatch_rejected "DEVA" "DEVB" (some "standard") (by decide) (by decide)
    (by decide) (by decide)

/-- C10: rule-evaluation failure containment.  For every fault pattern
in the alert engine's store operations, ingestion still returns a 200
success, the persisted telemetry sample is exactly the normalized
request, the pre-existing alerts are untouched, and `alertsCreated`
counts exactly the alerts that made it into the store before the
failure. -/
theorem alert_failure_containment (st : ServerState) (req : LocationData) (now : Int)
    (fail : Nat → Bool) :
    ((updateDeviceDataF st req now fail).2.success = true) ∧
    ((updateDeviceDataF st req now fail).2.statusCode = 200) ∧
    ((updateDeviceDataF st req now fail).1.samples =
      st.samples ++ [normalizeBattery req]) ∧
    ((updateDeviceDataF st req now fail).1.alerts.take st.alerts.length = st.alerts) ∧
    (st.alerts.length + (updateDeviceDataF st req now fail).2.alertsCreated =
      (updateDeviceDataF st req now fail).1.alerts.length) := by
  obtain ⟨n, hn⟩ := checkAndCreateAlertsF_append
    (upsertDevice st.devices req.deviceId now).2 (normalizeBattery req) st.alerts now fail
  simp [updateDeviceDataF, hn, List.take_left]

/-- While requests for a key arrive before its window resets and the
hit count stays within deviceRateLimit's maximum of 60, every request
is admitted and handled with a 200 success, and the counter advances by
exactly one per request. -/
theorem runIngestion_admitted (reqs : List (LocationData × Int)) :
    ∀ (s : WindowState) (st : ServerState),
    (∀ p ∈ reqs, p.2 < s.resetTime) →
    s.totalHits + reqs.length ≤ 60 →
    (runIngestion (some s) st reqs).1 =
      some ⟨s.totalHits + reqs.length, s.resetTime⟩ ∧
    (runIngestion (some s) st reqs).2.2.length = reqs.length ∧
    ∀ o ∈ (runIngestion (some s) st reqs).2.2,
      ∃ resp, o = RouteOutcome.handled resp ∧ resp.success = true ∧
        resp.statusCode = 200 := by
  induction reqs with
  | nil =>
    intro s st _ _
    simp [runIngestion]
  | cons p rest ih =>
    intro s st hin hcount
    have hc2 : s.totalHits + (rest.length + 1) ≤ 60 := by simpa using hcount
    have hp : p.2 < s.resetTime := hin p (List.mem_cons_self p rest)
    have hstep : ingestionRequest (some s) st p.1 p.2 =
        (⟨s.totalHits + 1, s.resetTime⟩,
          (updateDeviceDataF st p.1 p.2 (fun _ => false)).1,
          RouteOutcome.handled (updateDeviceDataF st p.1 p.2 (fun _ => false)).2) := by
      have hnr : ¬ p.2 ≥ s.resetTime := by omega
      have hle : ¬ s.totalHits + 1 > 60 := by omega
      simp [ingestionRequest, rateLimitStep, rlIncrement, deviceRateLimitConfig,
        hnr, hle]
    have ihr := ih ⟨s.totalHits + 1, s.resetTime⟩
      (updateDeviceDataF st p.1 p.2 (fun _ => false)).1
      (fun q hq => hin q (List.mem_cons_of_mem p hq))
      (by simp; omega)
    have hrun : runIngestion (some s) st (p :: rest) =
        ((runIngestion (some ⟨s.totalHits + 1, s.resetTime⟩)
            (updateDeviceDataF st p.1 p.2 (fun _ => false)).1 rest).1,
         (runIngestion (some ⟨s.totalHits + 1, s.resetTime⟩)
            (updateDeviceDataF st p.1 p.2 (fun _ => false)).1 rest).2.1,
         RouteOutcome.handled (updateDeviceDataF st p.1 p.2 (fun _ => false)).2 ::
           (runIngestion (some ⟨s.totalHits + 1, s.resetTime⟩)
            (updateDeviceDataF st p.1 p.2 (fun _ => false)).1 rest).2.2) := by
      simp [runIngestion, hstep]
    rw [hrun]
    refine ⟨?_, ?_, ?_⟩
    · rw [ihr.1]
      simp
      omega
    · simp [ihr.2.1]
    · intro o ho
      rcases List.mem_cons.mp ho with rfl | ho2
      · exact ⟨(updateDeviceDataF st p.1 p.2 (fun _ => false)).2, rfl,
          by simp [updateDeviceDataF], by simp [updateDeviceDataF]⟩
      · exact ihr.2.2 o ho2

/-- C5: rate governance boundary.  With deviceRateLimit (60 requests /
60 s), 60 ingestion requests for one identity inside one window are all
admitted and handled with 200 success responses; a 61st request inside
the same window is rejected with HTTP 429 carrying retryAfter 60
(so at most 60 s), and the server state is exactly the state after the
60th request — the limiter rejects before the controller can write. -/
theorem rate_limit_boundary (r1 : LocationData) (t1 : Int)
    (rest : List (LocationData × Int)) (req61 : LocationData) (t61 : Int)
    (st0 : ServerState)
    (hlen : rest.length = 59)
    (hrest : ∀ p ∈ rest, p.2 < t1 + 60000)
    (h61 : t61 < t1 + 60000) :
    (∀ o ∈ (runIngestion none st0 ((r1, t1) :: rest)).2.2,
      ∃ resp, o = RouteOutcome.handled resp ∧ resp.success = true ∧
        resp.statusCode = 200) ∧
    (runIngestion none st0 ((r1, t1) :: rest)).2.2.length = 60 ∧
    (ingestionRequest (runIngestion none st0 ((r1, t1) :: rest)).1
        (runIngestion none st0 ((r1, t1) :: rest)).2.1 req61 t61).2.2 =
      RouteOutcome.rejected ⟨429, 60⟩ ∧
    (ingestionRequest (runIngestion none st0 ((r1, t1) :: rest)).1
        (runIngestion none st0 ((r1, t1) :: rest)).2.1 req61 t61).2.1 =
      (runIngestion none st0 ((r1, t1) :: rest)).2.1 := by
  have hstep1 : ingestionRequest none st0 r1 t1 =
      (⟨1, t1 + 60000⟩,
        (updateDeviceDataF st0 r1 t1 (fun _ => false)).1,
        RouteOutcome.handled (updateDeviceDataF st0 r1 t1 (fun _ => false)).2) := by
    simp [ingestionRequest, rateLimitStep, rlIncrement, deviceRateLimitConfig]
  have ihr := runIngestion_admitted rest ⟨1, t1 + 60000⟩
    (updateDeviceDataF st0 r1 t1 (fun _ => false)).1
    (fun q hq => hrest q hq)
    (by simp [hlen])
  have hrun : runIngestion none st0 ((r1, t1) :: rest) =
      ((runIngestion (some ⟨1, t1 + 60000⟩)
          (updateDeviceDataF st0 r1 t1 (fun _ => false)).1 rest).1,
       (runIngestion (some ⟨1, t1 + 60000⟩)
          (updateDeviceDataF st0 r1 t1 (fun _ => false)).1 rest).2.1,
       RouteOutcome.handled (updateDeviceDataF st0 r1 t1 (fun _ => false)).2 ::
         (runIngestion (some ⟨1, t1 + 60000⟩)
          (updateDeviceDataF st0 r1 t1 (fun _ => false)).1 rest).2.2) := by
    simp [runIngestion, hstep1]
  have hfin : (runIngestion (some ⟨1, t1 + 60000⟩)
      (updateDeviceDataF st0 r1 t1 (fun _ => false)).1 rest).1 =
      some ⟨60, t1 + 60000⟩ := by
    rw [ihr.1, hlen]
  have hstep61 : ∀ stX : ServerState,
      ingestionRequest (some ⟨60, t1 + 60000⟩) stX req61 t61 =
        (⟨61, t1 + 60000⟩, stX, RouteOutcome.rejected ⟨429, 60⟩) := by
    intro stX
    have hnr : ¬ t61 ≥ t1 + 60000 := by omega
    simp [ingestionRequest, rateLimitStep, rlIncrement, deviceRateLimitConfig, hnr]
  rw [hrun]
  refine ⟨?_, ?_, ?_, ?_⟩
  · intro o ho
    rcases List.mem_cons.mp ho with rfl | ho2
    · exact ⟨(updateDeviceDataF st0 r1 t1 (fun _ => false)).2, rfl,
        by simp [updateDeviceDataF], by simp [updateDeviceDataF]⟩
    · exact ihr.2.2 o ho2
  · simp [ihr.2.1, hlen]
  · rw [hfin, hstep61]
  · rw [hfin, hstep61]

/-- Witness for C5: a burst of 60 requests at the window-opening
instant followed by a 61st at 1 s. -/
theorem rate_limit_boundary_witness :
    (∀ o ∈ (runIngestion none emptyServerState ((bareSample, 0) :: burstRequests)).2.2,
      ∃ resp, o = RouteOutcome.handled resp ∧ resp.success = true ∧
        resp.statusCode = 200) ∧
    (runIngestion none emptyServerState ((bareSample, 0) :: burstRequests)).2.2.length = 60 ∧
    (ingestionRequest (runIngestion none emptyServerState ((bareSample, 0) :: burstRequests)).1
        (runIngestion none emptyServerState ((bareSample, 0) :: burstRequests)).2.1
        bareSample 1000).2.2 =
      RouteOutcome.rejected ⟨429, 60⟩ ∧
    (ingestionRequest (runIngestion none emptyServerState ((bareSample, 0) :: burstRequests)).1
        (runIngestion none emptyServerState ((bareSample, 0) :: burstRequests)).2.1
        bareSample 1000).2.1 =
      (runIngestion none emptyServerState ((bareSample, 0) :: burstRequests)).2.1 :=
  rate_limit_boundary bareSample 0 burstRequests bareSample 1000 emptyServerState
    (by simp [burstRequests]) (by simp [burstRequests]) (by norm_num)

end Drishti
